import Mathlib

/-!
Verification of the core algorithms of a RIFT (Routing In Fat Trees)
control-plane implementation: the TIE-header age comparison, the LIE
acceptance rules, the ZTP best-offer selection, the TIE database
operations (store / remove / flush), the flooding scope rules, and the
per-interface hold timer. Each definition is a shallow embedding of the
corresponding function in `rift/node.py` or `rift/interface.py`.
-/

namespace Rift

/-- Directions a TIE can have (`common.ttypes.TieDirectionType`):
TIE-IDs only ever carry South or North. -/
inductive TieDir
| south
| north
deriving DecidableEq, Repr

/-- Directions a neighbor can lie in (`constants.DIR_SOUTH`, `DIR_NORTH`,
`DIR_EAST_WEST`). -/
inductive Dir
| south
| north
| eastWest
deriving DecidableEq, Repr

/-- TIE types (`common.ttypes.TIETypeType`). `pfx` is `PrefixTIEType`,
`posDisagg` is `PositiveDisaggregationPrefixTIEType`, `negDisagg` is
`NegativeDisaggregationPrefixTIEType`, `pgPfx` is `PGPrefixTIEType`,
`keyValue` is `KeyValueTIEType`. -/
inductive TieType
| node
| pfx
| posDisagg
| negDisagg
| pgPfx
| keyValue
deriving DecidableEq, Repr

/-- The 4-tuple TIE-ID (`encoding.ttypes.TIEID`). -/
structure TieId where
  direction : TieDir
  originator : Nat
  tietype : TieType
  tie_nr : Nat
deriving DecidableEq, Repr

/-- A TIE header (`encoding.ttypes.TIEHeader`): TIE-ID, sequence number,
remaining lifetime, and origination time (the latter is never used in age
comparison). -/
structure TieHeader where
  tieid : TieId
  seq_nr : Nat
  remaining_lifetime : Nat
  origination_time : Option Nat := none
deriving DecidableEq, Repr

/-- Modelled from the spec: `common.constants.lifetime_diff2ignore` is not
under `src/`; the spec fixes it at 300 seconds (5 minutes). -/
def lifetime_diff2ignore : Nat := 300

/-- Embedding of `compare_tie_header_age` (`node.py` lines 44-71).
Returns `-1` if `header1` is older, `+1` if `header1` is newer, `0` if the
two headers are the "same" age. The source asserts that both headers carry
the same TIE-ID; theorems carry that as a hypothesis. -/
def compare_tie_header_age (header1 header2 : TieHeader) : Int :=
  -- Highest sequence number is newer
  if header1.seq_nr < header2.seq_nr then -1
  else if header1.seq_nr > header2.seq_nr then 1
  -- Remaining lifetime 0 means a request; non-zero is always newer
  else if header1.remaining_lifetime = 0 ∧ header2.remaining_lifetime ≠ 0 then -1
  else if header1.remaining_lifetime ≠ 0 ∧ header2.remaining_lifetime = 0 then 1
  -- Longest remaining lifetime is newer, unless the difference is within
  -- lifetime_diff2ignore, in which case the ages are considered the same
  else if ((header1.remaining_lifetime : Int) - (header2.remaining_lifetime : Int)).natAbs
      > lifetime_diff2ignore then
    if header1.remaining_lifetime < header2.remaining_lifetime then -1
    else if header1.remaining_lifetime > header2.remaining_lifetime then 1
    else 0
  else 0

/-- The three ordered age-comparison rules exactly as the specification
words them: (1) higher `seq_nr` is newer; (2) if equal, non-zero
`remaining_lifetime` is newer than zero; (3) otherwise, if the absolute
difference of the remaining lifetimes exceeds 300 seconds the header with
the longer `remaining_lifetime` is newer, else the headers are the same
age. Stated from the spec text, to be compared with the source embedding. -/
def compare_age_spec (a b : TieHeader) : Int :=
  if a.seq_nr > b.seq_nr then 1
  else if b.seq_nr > a.seq_nr then -1
  else if a.remaining_lifetime ≠ 0 ∧ b.remaining_lifetime = 0 then 1
  else if b.remaining_lifetime ≠ 0 ∧ a.remaining_lifetime = 0 then -1
  else if ((a.remaining_lifetime : Int) - (b.remaining_lifetime : Int)).natAbs > 300 then
    if a.remaining_lifetime > b.remaining_lifetime then 1 else -1
  else 0

/-- States of the per-interface adjacency FSM (`Interface.State`). -/
inductive FsmState
| one_way
| two_way
| three_way
deriving DecidableEq, Repr

/-- Modelled from the spec: `offer.py` (class `RxOffer`) is not under
`src/`. Per the spec an Offer is the per-interface snapshot of a
neighbor's advertised level used by ZTP: interface, system id, level,
`not_a_ztp_offer`, observed adjacency state, removed flag, removed
reason. The level is a defined level: offers with undefined level are
marked removed by `action_update_or_remove_offer` before any level
comparison, and `better_offer` never reads the level of a removed
offer. -/
structure RxOffer where
  interface_name : String
  system_id : Nat
  level : Nat
  not_a_ztp_offer : Bool
  state : FsmState
  removed : Bool := false
  removed_reason : String := ""
deriving DecidableEq, Repr

/-- Embedding of `Node.better_offer` (`node.py` lines 162-193): discard
removed offers, offers marked not-a-ZTP-offer, and (when
`three_way_only`) offers whose adjacency is not THREE_WAY; a sole
surviving candidate wins; otherwise compare levels and break ties by
system id. The level comparison is kept exactly as written in the
source: `offer1.level > offer2.level` returns `offer1`, then
`offer2.level < offer1.level` returns `offer2`. -/
def better_offer (offer1 offer2 : Option RxOffer) (three_way_only : Bool) :
    Option RxOffer :=
  let offer1 := match offer1 with
    | some o => if o.removed then none else some o
    | none => none
  let offer2 := match offer2 with
    | some o => if o.removed then none else some o
    | none => none
  let offer1 := match offer1 with
    | some o => if o.not_a_ztp_offer then none else some o
    | none => none
  let offer2 := match offer2 with
    | some o => if o.not_a_ztp_offer then none else some o
    | none => none
  let offer1 := if three_way_only then
      match offer1 with
      | some o => if o.state ≠ FsmState.three_way then none else some o
      | none => none
    else offer1
  let offer2 := if three_way_only then
      match offer2 with
      | some o => if o.state ≠ FsmState.three_way then none else some o
      | none => none
    else offer2
  match offer1, offer2 with
  | none, _ => offer2
  | some o1, none => some o1
  | some o1, some o2 =>
    if o1.level > o2.level then some o1
    else if o2.level < o1.level then some o2
    else if o1.system_id < o2.system_id then some o1
    else some o2

/-- Modelled from the spec: the node-TIE neighbor entry
(`encoding.ttypes.NodeNeighborsTIEElement`) is not under `src/`; per the
spec it carries `(level, cost, set of (local_link_id, remote_link_id)
pairs, bandwidth)`. -/
structure NodeNeighborTieElement where
  level : Option Nat
  cost : Nat
  link_ids : List (Nat × Nat)
  bandwidth : Nat
deriving DecidableEq, Repr

/-- Modelled from the spec: the node TIE element
(`encoding.ttypes.NodeTIEElement`) is not under `src/`; per the spec it
carries the originator's level, a mapping from neighbor system id to its
entry, and an overload flag. -/
structure NodeTieElement where
  level : Option Nat
  neighbors : List (Nat × NodeNeighborTieElement)
  overload : Bool := false
deriving DecidableEq, Repr

/-- Modelled from the spec: `encoding.ttypes.PrefixTIEElement` is not
under `src/`; per the spec it maps each advertised destination to
`(metric, tags)`. A freshly constructed element (the thrift default) has
no mapping at all, modelled as `none`. -/
structure PfxTieElement where
  pfxs : Option (List (Nat × Nat)) := none
deriving DecidableEq, Repr

/-- Modelled from the spec: `encoding.ttypes.KeyValueTIEElement` is not
under `src/`; a freshly constructed element has no mapping. -/
structure KeyValueTieElement where
  keyvalues : Option (List (Nat × Nat)) := none
deriving DecidableEq, Repr

/-- Typed TIE element contents (`encoding.ttypes.TIEElement`, a union of
`node`, `prefixes`, `positive_disaggregation_prefixes` and `keyvalues`
slots), modelled as the tagged variant the design notes call for. -/
inductive TieElement
| nodeE (node : NodeTieElement)
| pfxE (pfxs : PfxTieElement)
| posDisaggE (pfxs : PfxTieElement)
| kvE (keyvalues : KeyValueTieElement)
deriving DecidableEq, Repr

/-- A full TIE (`encoding.ttypes.TIEPacket`): header plus element. -/
structure TiePacket where
  header : TieHeader
  element : TieElement
deriving DecidableEq, Repr

/-- The ordered TIE store (`sortedcontainers.SortedDict` keyed by
TIE-ID), modelled as an association list with unique keys; lookup,
replacement and deletion below match the dict operations the source
uses. -/
abbrev TieDb := List (TieId × TiePacket)

/-- Lookup in the TIE store (`self.ties.get(tie_id)` / `tie_id in
self.ties`). -/
def db_find (ties : TieDb) (tie_id : TieId) : Option TiePacket :=
  (ties.find? (fun p => p.1 == tie_id)).map (fun p => p.2)

/-- Assignment `self.ties[tie_id] = tie_packet`: replace the entry when
the key is present, otherwise add one. -/
def db_insert (ties : TieDb) (tie_id : TieId) (tie_packet : TiePacket) : TieDb :=
  if ties.any (fun p => p.1 == tie_id) then
    ties.map (fun p => if p.1 == tie_id then (tie_id, tie_packet) else p)
  else
    ties ++ [(tie_id, tie_packet)]

/-- Deletion `del self.ties[tie_id]`. -/
def db_erase (ties : TieDb) (tie_id : TieId) : TieDb :=
  ties.filter (fun p => !(p.1 == tie_id))

/-- Modelled from the spec: `common.constants.top_of_fabric_level` is not
under `src/`; the spec fixes the conventional top-of-fabric level at 24. -/
def top_of_fabric_level : Nat := 24

/-- Modelled from the spec: `common.constants.leaf_level` is not under
`src/`; the spec fixes the leaf level at 0. -/
def leaf_level : Nat := 0

/-- The node-scoped state the verified functions read and write: system
id, the level configuration (`configured_level`, top-of-fabric flag,
leaf-only flag, derived level), leaf-2-leaf support, the highest
adjacency three-way (HAT), the TIE store, and the record of SPF
triggers. -/
structure NodeState where
  system_id : Nat
  configured_level : Option Nat := none
  top_of_fabric_flag : Bool := false
  leaf_only : Bool := false
  leaf_2_leaf : Bool := false
  derived_level : Option Nat := none
  highest_adjacency_three_way : Option Nat := none
  ties : TieDb := []
  spf_triggers : List String := []
deriving DecidableEq, Repr

/-- Embedding of `Node.level_value` (`node.py` lines 542-550). -/
def level_value (n : NodeState) : Option Nat :=
  if n.configured_level.isSome then n.configured_level
  else if n.top_of_fabric_flag then some top_of_fabric_level
  else if n.leaf_only then some leaf_level
  else n.derived_level

/-- Embedding of `Node.top_of_fabric` (`node.py` lines 559-561). -/
def top_of_fabric (n : NodeState) : Bool :=
  level_value n == some top_of_fabric_level

/-- Embedding of `Node.trigger_spf` (`node.py` lines 1787-1798) restricted
to the node state modelled here: the trigger reason is recorded (the
source bumps `_spf_triggers_count`, prepends the reason to the trigger
history and runs or defers the SPF). The reason strings below omit the
`tie_id_str` interpolation done by the external `packet_common`. -/
def trigger_spf (n : NodeState) (reason : String) : NodeState :=
  { n with spf_triggers := reason :: n.spf_triggers }

/-- Embedding of `Node.ties_differ_enough_for_spf` (`node.py` lines
1279-1295): a seq_nr change, a zero-lifetime transition in either
direction, or an element change warrants an SPF. -/
def ties_differ_enough_for_spf (old_tie new_tie : TiePacket) : Bool :=
  if old_tie.header.seq_nr ≠ new_tie.header.seq_nr then true
  else if old_tie.header.remaining_lifetime = 0 ∧ new_tie.header.remaining_lifetime ≠ 0 then true
  else if old_tie.header.remaining_lifetime ≠ 0 ∧ new_tie.header.remaining_lifetime = 0 then true
  else old_tie.element ≠ new_tie.element

/-- Embedding of `Node.store_tie` (`node.py` lines 1297-1309). -/
def store_tie (n : NodeState) (tie_packet : TiePacket) : NodeState :=
  let tie_id := tie_packet.header.tieid
  match db_find n.ties tie_id with
  | some old_tie_packet =>
    let stored := { n with ties := db_insert n.ties tie_id tie_packet }
    if ties_differ_enough_for_spf old_tie_packet tie_packet then
      trigger_spf stored "TIE changed"
    else stored
  | none =>
    trigger_spf { n with ties := db_insert n.ties tie_id tie_packet } "TIE added"

/-- Embedding of `Node.remove_tie` (`node.py` lines 1311-1316): deleting
a TIE-ID that is not in the database is not an error. -/
def remove_tie (n : NodeState) (tie_id : TieId) : NodeState :=
  match db_find n.ties tie_id with
  | some _ => trigger_spf { n with ties := db_erase n.ties tie_id } "TIE removed"
  | none => n

/-- Embedding of `Node.find_tie` (`node.py` lines 1318-1320). -/
def find_tie (n : NodeState) (tie_id : TieId) : Option TiePacket :=
  db_find n.ties tie_id

/-- Recursion over the headers of a received TIRE, mirroring the loop of
`Node.process_received_tire_packet` (`node.py` lines 1403-1420); the
three components are the request, start-sending and acked header lists
in processing order. -/
def tire_headers_process (n : NodeState) :
    List TieHeader → List TieHeader × List TieHeader × List TieHeader
  | [] => ([], [], [])
  | header_in_tire :: rest =>
    let (req, start, ack) := tire_headers_process n rest
    match find_tie n header_in_tire.tieid with
    | none => (req, start, ack)
    | some db_tie =>
      let comparison := compare_tie_header_age db_tie.header header_in_tire
      if comparison < 0 then (header_in_tire :: req, start, ack)
      else if comparison > 0 then (req, db_tie.header :: start, ack)
      else (req, start, db_tie.header :: ack)

/-- A received TIRE packet: a list of TIE headers. -/
structure TirePacket where
  headers : List TieHeader
deriving DecidableEq, Repr

/-- Embedding of `Node.process_received_tire_packet` (`node.py` lines
1403-1420). -/
def process_received_tire_packet (n : NodeState) (tire_packet : TirePacket) :
    List TieHeader × List TieHeader × List TieHeader :=
  tire_headers_process n tire_packet.headers

/-- Constant `MY_TIE_NR` (`node.py` line 31). -/
def MY_TIE_NR : Nat := 1

/-- Constant `FLUSH_LIFETIME` (`node.py` line 33). -/
def FLUSH_LIFETIME : Nat := 60

/-- Modelled from the spec: `packet_common.make_tie_header` is not under
`src/`; it builds a TIE header from the TIE-ID fields, seq_nr and
remaining lifetime. -/
def make_tie_header (direction : TieDir) (originator : Nat) (tietype : TieType)
    (tie_nr seq_nr remaining_lifetime : Nat) : TieHeader :=
  { tieid := ⟨direction, originator, tietype, tie_nr⟩
    seq_nr := seq_nr
    remaining_lifetime := remaining_lifetime
    origination_time := none }

/-- Embedding of `Node.find_according_real_node_tie` (`node.py` lines
1422-1430): look up this node's own real node TIE (same TIE-ID but
`tie_nr = MY_TIE_NR`); the source asserts the result is present, so
`none` models that assertion failing. -/
def find_according_real_node_tie (n : NodeState) (rx_tie_header : TieHeader) :
    Option TiePacket :=
  find_tie n { rx_tie_header.tieid with tie_nr := MY_TIE_NR }

/-- Embedding of `Node.make_according_empty_tie` (`node.py` lines
1432-1466). `none` models the `assert False` the source hits for the
negative-disaggregation and policy-guided TIE types (and the assertion
in `find_according_real_node_tie`, including a stored node TIE that does
not carry a node element, on which the source would raise). -/
def make_according_empty_tie (n : NodeState) (rx_tie_header : TieHeader) :
    Option TiePacket :=
  let new_tie_header := make_tie_header
    rx_tie_header.tieid.direction
    rx_tie_header.tieid.originator
    rx_tie_header.tieid.tietype
    rx_tie_header.tieid.tie_nr
    (rx_tie_header.seq_nr + 1)
    FLUSH_LIFETIME
  match rx_tie_header.tieid.tietype with
  | TieType.node =>
    match find_according_real_node_tie n rx_tie_header with
    | none => none
    | some real_node_tie_packet =>
      match real_node_tie_packet.element with
      | TieElement.nodeE ne =>
        some ⟨new_tie_header, TieElement.nodeE { ne with neighbors := [] }⟩
      | _ => none
  | TieType.pfx => some ⟨new_tie_header, TieElement.pfxE {}⟩
  | TieType.posDisagg => some ⟨new_tie_header, TieElement.posDisaggE {}⟩
  | TieType.negDisagg => none
  | TieType.pgPfx => none
  | TieType.keyValue => some ⟨new_tie_header, TieElement.kvE {}⟩

/-- Embedding of `Node.bump_own_tie` (`node.py` lines 1468-1480). When
the TIE is missing locally, the according empty TIE is built and stored;
when it is present, the stored packet's header gets the received seq_nr
plus one (the source mutates the stored object in place). Returns the
updated node state and the header to send. -/
def bump_own_tie (n : NodeState) (db_tie : Option TiePacket)
    (rx_tie_header : TieHeader) : Option (NodeState × TieHeader) :=
  match db_tie with
  | none =>
    match make_according_empty_tie n rx_tie_header with
    | none => none
    | some according_empty_tie_packet =>
      some (store_tie n according_empty_tie_packet, according_empty_tie_packet.header)
  | some t =>
    let new_header := { t.header with seq_nr := rx_tie_header.seq_nr + 1 }
    some ({ n with ties := db_insert n.ties t.header.tieid { t with header := new_header } },
      new_header)

/-- Embedding of `Node.process_received_tie_packet` (`node.py` lines
1482-1513). Returns the updated node state, the start-sending header and
the ack header; `none` models the source raising inside
`make_according_empty_tie`. -/
def process_received_tie_packet (n : NodeState) (rx_tie : TiePacket) :
    Option (NodeState × Option TieHeader × Option TieHeader) :=
  let rx_tie_header := rx_tie.header
  let rx_tie_id := rx_tie_header.tieid
  match db_find n.ties rx_tie_id with
  | none =>
    if rx_tie_id.originator == n.system_id then
      match bump_own_tie n none rx_tie_header with
      | none => none
      | some (n2, hdr) => some (n2, some hdr, none)
    else
      some (store_tie n rx_tie, none, some rx_tie_header)
  | some db_tie =>
    let comparison := compare_tie_header_age db_tie.header rx_tie_header
    if comparison < 0 then
      if rx_tie_id.originator == n.system_id then
        match bump_own_tie n (some db_tie) rx_tie_header with
        | none => none
        | some (n2, hdr) => some (n2, some hdr, none)
      else
        some (store_tie n rx_tie, none, some rx_tie.header)
    else if comparison > 0 then
      some (n, some db_tie.header, none)
    else
      some (n, none, some db_tie.header)

/-- Modelled from the spec: `neighbor.py` (class `Neighbor`) is not under
`src/`. Per the spec a Neighbor is captured from the most recent LIE on
an interface: name, system id, advertised level, source address, flood
port, the link id on the neighbor's side (`local_id`), hold time, plus
the `not_a_ztp_offer` flag and the peer the LIE echoes
(`neighbor_system_id` / `neighbor_link_id`, absent when the LIE names no
neighbor). The advertised level is optional because a LIE may carry an
undefined level. -/
structure Neighbor where
  name : String := ""
  system_id : Nat
  level : Option Nat := none
  address : Nat := 0
  flood_port : Nat := 0
  local_id : Nat := 0
  holdtime : Nat := 3
  not_a_ztp_offer : Bool := false
  neighbor_system_id : Option Nat := none
  neighbor_link_id : Option Nat := none
deriving DecidableEq, Repr

/-- Modelled from the spec: `Neighbor.top_of_fabric` is not under `src/`;
a node is top of fabric when its level is the conventional
top-of-fabric level (24), mirroring `Node.top_of_fabric`. -/
def Neighbor.top_of_fabric (nb : Neighbor) : Bool :=
  nb.level == some top_of_fabric_level

/-- The per-interface state the verified functions read and write: link
id, MTU, PoD, the adjacency FSM state, the neighbor captured from the
most recent LIE, the hold-timer tick counter (`None` when not running),
and the recorded accept/reject verdict for the last LIE. -/
structure IntfState where
  name : String := ""
  local_id : Nat := 1
  mtu : Nat := 1400
  pod : Nat := 0
  fsm_state : FsmState := FsmState.one_way
  neighbor : Option Neighbor := none
  time_ticks_since_lie_received : Option Nat := none
  lie_accept_or_reject : String := "No LIE Received"
  lie_accept_or_reject_rule : String := "-"
deriving DecidableEq, Repr

/-- The level comparison inside `Interface.neighbor_direction`: the
neighbor is north of us when its level is higher, south when lower, and
east-west when equal. -/
def direction_of (neighbor_level my_level : Nat) : Dir :=
  if neighbor_level > my_level then Dir.north
  else if neighbor_level < my_level then Dir.south
  else Dir.eastWest

/-- Embedding of `Interface.neighbor_direction` (`interface.py` lines
743-752): `none` when there is no neighbor. An undefined level on either
side would raise in the source (the comparison is only reached for an
established adjacency, whose levels are defined); that case is modelled
as an undetermined direction. -/
def neighbor_direction (n : NodeState) (intf : IntfState) : Option Dir :=
  match intf.neighbor with
  | none => none
  | some nb =>
    match nb.level, level_value n with
    | some nl, some ml => some (direction_of nl ml)
    | _, _ => none

/-- Embedding of `Node.tie_is_originated_by_node` (`node.py` lines
1515-1516). -/
def tie_is_originated_by_node (tie_header : TieHeader) (node_system_id : Nat) : Bool :=
  tie_header.tieid.originator == node_system_id

/-- Embedding of `Node.tie_originator_level` (`node.py` lines 1518-1530):
the originator level of a node TIE is read from the TIE database; `none`
when the TIE is not there (or the stored packet does not carry a node
element, on which the source would raise). -/
def tie_originator_level (n : NodeState) (tie_header : TieHeader) : Option Nat :=
  match find_tie n tie_header.tieid with
  | none => none
  | some db_tie =>
    match db_tie.element with
    | TieElement.nodeE ne => ne.level
    | _ => none

/-- Embedding of `Node.is_flood_allowed` (`node.py` lines 1532-1626): the
direction-scoped flooding rule matrix. `from_node_level` is optional as
in the source (`level_value` may be undefined); the one branch that
orders levels (`Node S-TIE to N`) is only reached with a defined
from-level in the source, which would raise otherwise, and is modelled
as not allowed. -/
def is_flood_allowed (n : NodeState) (tie_header : TieHeader)
    (to_node_direction : Option Dir) (to_node_system_id : Nat)
    (from_node_system_id : Nat) (from_node_level : Option Nat)
    (from_node_is_top_of_fabric : Bool) : Bool × String :=
  match tie_header.tieid.direction with
  | TieDir.south =>
    match tie_header.tieid.tietype with
    | TieType.node =>
      match to_node_direction with
      | some Dir.south =>
        if tie_originator_level n tie_header == from_node_level then
          (true, "Node S-TIE to S: originator level is same as from-node")
        else
          (false, "Node S-TIE to S: originator level is not same as from-node")
      | some Dir.north =>
        match tie_originator_level n tie_header with
        | none => (false, "Node S-TIE to N: could not determine originator level")
        | some originator_level =>
          match from_node_level with
          | some from_level =>
            if originator_level > from_level then
              (true, "Node S-TIE to N: originator level is higher than from-node")
            else
              (false, "Node S-TIE to N: originator level is not higher than from-node")
          | none =>
            (false, "Node S-TIE to N: originator level is not higher than from-node")
      | some Dir.eastWest =>
        if from_node_is_top_of_fabric then
          (false, "Node S-TIE to EW: from-node is top of fabric")
        else
          (true, "Node S-TIE to EW: from-node is not top of fabric")
      | none => (false, "Node S-TIE to ?: never flood")
    | _ =>
      match to_node_direction with
      | some Dir.south =>
        if tie_is_originated_by_node tie_header from_node_system_id then
          (true, "Non-node S-TIE to S: self-originated")
        else
          (false, "Non-node S-TIE to S: not self-originated")
      | some Dir.north =>
        if to_node_system_id == tie_header.tieid.originator then
          (true, "Non-node S-TIE to N: to-node is originator of TIE")
        else
          (false, "Non-node S-TIE to N: to-node is not originator of TIE")
      | some Dir.eastWest =>
        if from_node_is_top_of_fabric then
          (false, "Non-node S-TIE to EW: this top of fabric")
        else if tie_is_originated_by_node tie_header from_node_system_id then
          (true, "Non-node S-TIE to EW: self-originated and not top of fabric")
        else
          (false, "Non-node S-TIE to EW: not self-originated")
      | none => (false, "None-node S-TIE to ?: never flood")
  | TieDir.north =>
    match to_node_direction with
    | some Dir.south => (false, "N-TIE to S: never flood")
    | some Dir.north => (true, "N-TIE to N: always flood")
    | some Dir.eastWest =>
      if from_node_is_top_of_fabric then
        (true, "N-TIE to EW: top of fabric")
      else
        (false, "N-TIE to EW: not top of fabric")
    | none => (false, "N-TIE to ?: never flood")

/-- Embedding of `Node.flood_allowed_from_node_to_nbr` (`node.py` lines
1628-1641): the transmit-side scope filter from this node to a
neighbor. -/
def flood_allowed_from_node_to_nbr (n : NodeState) (tie_header : TieHeader)
    (neighbor_direction : Option Dir) (neighbor_system_id : Nat)
    (node_system_id : Nat) (node_level : Option Nat)
    (node_is_top_of_fabric : Bool) : Bool × String :=
  is_flood_allowed n tie_header neighbor_direction neighbor_system_id
    node_system_id node_level node_is_top_of_fabric

/-- The direction reversal inside `Node.flood_allowed_from_nbr_to_node`
(`node.py` lines 1650-1655): south and north flip, anything else is kept
as is. -/
def reverse_direction : Option Dir → Option Dir
  | some Dir.south => some Dir.north
  | some Dir.north => some Dir.south
  | d => d

/-- Embedding of `Node.flood_allowed_from_nbr_to_node` (`node.py` lines
1643-1662): would the neighbor be allowed to flood this TIE to this
node, evaluated with the direction reversed. -/
def flood_allowed_from_nbr_to_node (n : NodeState) (tie_header : TieHeader)
    (neighbor_direction : Option Dir) (neighbor_system_id : Nat)
    (neighbor_level : Option Nat) (neighbor_is_top_of_fabric : Bool)
    (node_system_id : Nat) : Bool × String :=
  is_flood_allowed n tie_header (reverse_direction neighbor_direction)
    node_system_id neighbor_system_id neighbor_level neighbor_is_top_of_fabric

/-- Embedding of `Interface.is_request_allowed_simple` (`interface.py`
lines 810-817); the source reads `self.neighbor` unconditionally and
would raise without one (requests are only evaluated on an established
adjacency). -/
def is_request_allowed_simple (n : NodeState) (intf : IntfState)
    (tie_header : TieHeader) : Bool × String :=
  match intf.neighbor with
  | some nb =>
    flood_allowed_from_nbr_to_node n tie_header (neighbor_direction n intf)
      nb.system_id nb.level (Neighbor.top_of_fabric nb) n.system_id
  | none => (false, "no neighbor")

/-- Modelled from the spec: `common.ttypes.HierarchyIndications` is not
under `src/`; the values the source compares against. -/
inductive HierarchyIndications
| leaf_only
| leaf_only_and_leaf_2_leaf_procedures
| top_of_fabric
deriving DecidableEq, Repr

/-- Modelled from the spec: `encoding.ttypes.NodeCapabilities` is not
under `src/`; the LIE capabilities field with its optional hierarchy
indication. -/
structure NodeCapabilities where
  flood_reduction : Option Bool := none
  hierarchy_indications : Option HierarchyIndications := none
deriving DecidableEq, Repr

/-- Modelled from the spec: `constants.RIFT_MAJOR_VERSION` is not under
`src/`; the exact value is immaterial to the claims, which only need the
version check to pass or fail. -/
def RIFT_MAJOR_VERSION : Nat := 1

/-- Constant `Interface.UNDEFINED_OR_ANY_POD` (`interface.py` line 39):
PoD 0 means any. -/
def UNDEFINED_OR_ANY_POD : Nat := 0

/-- Modelled from the spec: `common.constants.default_lie_holdtime` is
not under `src/`; the spec fixes the default hold time at 3 seconds. -/
def default_lie_holdtime : Nat := 3

/-- Modelled from the spec: the `encoding.ttypes.Neighbor` field of a LIE
is not under `src/`; it echoes the currently known peer as
`(system_id, local_id)`. -/
structure LieNeighbor where
  system_id : Nat
  local_id : Nat
deriving DecidableEq, Repr

/-- Modelled from the spec: `encoding.ttypes.LIEPacket` is not under
`src/`; the fields the verified functions read. -/
structure LiePacket where
  name : String := ""
  local_id : Nat := 0
  flood_port : Nat := 0
  link_mtu_size : Nat := 1400
  neighbor : Option LieNeighbor := none
  pod : Nat := 0
  nonce : Nat := 0
  capabilities : Option NodeCapabilities := none
  holdtime : Nat := 3
  not_a_ztp_offer : Bool := false
  you_are_flood_repeater : Bool := true
deriving DecidableEq, Repr

/-- Modelled from the spec: `encoding.ttypes.PacketHeader` is not under
`src/`; sender system id, optional level, protocol major version. -/
structure PacketHeader where
  sender : Nat
  level : Option Nat := none
  major_version : Nat := RIFT_MAJOR_VERSION
deriving DecidableEq, Repr

/-- A protocol packet carrying a LIE: the optional header (the source
checks `if not header`) and the LIE content
(`protocol_packet.content.lie`). -/
structure ProtocolPacket where
  header : Option PacketHeader
  lie : LiePacket
deriving DecidableEq, Repr

/-- Embedding of `Interface.is_valid_received_system_id` (`interface.py`
lines 641-644): zero is invalid. -/
def is_valid_received_system_id (system_id : Nat) : Bool :=
  if system_id == 0 then false else true

/-- Embedding of `Interface.this_node_is_leaf` (`interface.py` lines
273-274). -/
def this_node_is_leaf (n : NodeState) : Bool :=
  level_value n == some leaf_level

/-- Embedding of `Interface.hat_not_greater_remote_level` (`interface.py`
lines 276-279): an undefined HAT never exceeds anything. An undefined
remote level would raise in the source (the caller has already rejected
undefined-level LIEs); modelled as `false`. -/
def hat_not_greater_remote_level (n : NodeState) (remote_level : Option Nat) : Bool :=
  match n.highest_adjacency_three_way with
  | none => true
  | some hat =>
    match remote_level with
    | some rl => hat ≤ rl
    | none => false

/-- Embedding of `Interface.both_nodes_support_leaf_2_leaf`
(`interface.py` lines 281-300). -/
def both_nodes_support_leaf_2_leaf (n : NodeState) (protocol_packet : ProtocolPacket) :
    Bool :=
  match protocol_packet.header with
  | none => false
  | some header =>
    if !(this_node_is_leaf n) then false
    else if header.level != some 0 then false
    else if !n.leaf_2_leaf then false
    else
      match protocol_packet.lie.capabilities with
      | none => false
      | some capabilities =>
        capabilities.hierarchy_indications
          == some HierarchyIndications.leaf_only_and_leaf_2_leaf_procedures

/-- Embedding of `Interface.neither_leaf_and_ldiff_one` (`interface.py`
lines 302-316); the source asserts both levels are defined before taking
the absolute difference, so the undefined cases are unreachable at the
call site. -/
def neither_leaf_and_ldiff_one (n : NodeState) (protocol_packet : ProtocolPacket) :
    Bool :=
  match protocol_packet.header with
  | none => false
  | some header =>
    if this_node_is_leaf n then false
    else if header.level == some 0 then false
    else
      match header.level, level_value n with
      | some rl, some ml => ((rl : Int) - (ml : Int)).natAbs ≤ 1
      | _, _ => false

/-- Embedding of `Interface.is_received_lie_acceptable` (`interface.py`
lines 318-383). The result is `(accept, rule, offer_to_ztp, warning)`;
the rules are applied in order, first match wins, and the final
catch-all rejects with "Level mismatch". -/
def is_received_lie_acceptable (n : NodeState) (intf : IntfState)
    (protocol_packet : ProtocolPacket) : Bool × String × Bool × Bool :=
  match protocol_packet.header with
  | none => (false, "Missing header", false, true)
  | some header =>
    if header.major_version != RIFT_MAJOR_VERSION then
      (false, "Different major protocol version", false, true)
    else if !(is_valid_received_system_id header.sender) then
      (false, "Invalid system ID", false, true)
    else if n.system_id == header.sender then
      (false, "Remote system ID is same as local system ID (loop)", false, false)
    else if intf.mtu != protocol_packet.lie.link_mtu_size then
      (false, "MTU mismatch", false, true)
    else if header.level == none then
      (false, "Remote level (in received LIE) is undefined", true, false)
    else if level_value n == none then
      (false, "My level is undefined", true, false)
    else if (intf.pod != UNDEFINED_OR_ANY_POD)
        && (protocol_packet.lie.pod != UNDEFINED_OR_ANY_POD)
        && (intf.pod != protocol_packet.lie.pod) then
      (false, "PoD mismatch", true, true)
    else if intf.mtu != protocol_packet.lie.link_mtu_size then
      (false, "MTU mismatch", true, true)
    else if this_node_is_leaf n && hat_not_greater_remote_level n header.level then
      (true, "This node is leaf and HAT not greater than remote level", true, false)
    else if !(this_node_is_leaf n) && (header.level == some 0) then
      (true, "This node is not leaf and neighbor is leaf", true, false)
    else if both_nodes_support_leaf_2_leaf n protocol_packet then
      (true, "Both nodes are leaf and support leaf-2-leaf", true, false)
    else if neither_leaf_and_ldiff_one n protocol_packet then
      (true, "Neither node is leaf and level difference is at most one", true, false)
    else
      (false, "Level mismatch", true, true)

/-- Events of the per-interface adjacency FSM (`Interface.Event`). -/
inductive Event
| timer_tick
| level_changed
| hal_changed
| hat_changed
| hals_changed
| lie_received
| new_neighbor
| valid_reflection
| neighbor_dropped_reflection
| neighbor_changed_level
| neighbor_changed_address
| neighbor_changed_minor_fields
| unacceptable_header
| hold_time_expired
| multiple_neighbors
| lie_corrupt
| send_lie
deriving DecidableEq, Repr

/-- Modelled from the spec: the `Neighbor` constructor (in the external
`neighbor.py`) captures the LIE's fields plus the source address and
port. -/
def make_neighbor (protocol_packet : ProtocolPacket) (address port : Nat) : Neighbor :=
  match protocol_packet.header with
  | some header =>
    { name := protocol_packet.lie.name
      system_id := header.sender
      level := header.level
      address := address
      flood_port := protocol_packet.lie.flood_port
      local_id := protocol_packet.lie.local_id
      holdtime := protocol_packet.lie.holdtime
      not_a_ztp_offer := protocol_packet.lie.not_a_ztp_offer
      neighbor_system_id := (protocol_packet.lie.neighbor).map LieNeighbor.system_id
      neighbor_link_id := (protocol_packet.lie.neighbor).map LieNeighbor.local_id }
  | none => { system_id := port - port }

/-- Embedding of `Interface.check_reflection` (`interface.py` lines
205-216): does the stored neighbor name this node's system id and this
interface's local link id as the peer? The source reads `self.neighbor`
unconditionally (callers only reach it with a neighbor present). -/
def check_reflection (intf : IntfState) (node_system_id : Nat) : Bool :=
  match intf.neighbor with
  | none => false
  | some nb =>
    if nb.neighbor_system_id != some node_system_id then false
    else if nb.neighbor_link_id != some intf.local_id then false
    else true

/-- Embedding of `Interface.check_three_way` (`interface.py` lines
218-237), returning the FSM events pushed. The TWO_WAY and THREE_WAY
states always have a neighbor in the source; a missing one is modelled
as no event. -/
def check_three_way (intf : IntfState) (node_system_id : Nat) : List Event :=
  match intf.fsm_state with
  | FsmState.one_way => []
  | FsmState.two_way =>
    match intf.neighbor with
    | none => []
    | some nb =>
      match nb.neighbor_system_id with
      | none => []
      | some _ =>
        if check_reflection intf node_system_id then [Event.valid_reflection]
        else [Event.multiple_neighbors]
  | FsmState.three_way =>
    match intf.neighbor with
    | none => []
    | some nb =>
      match nb.neighbor_system_id with
      | none => [Event.neighbor_dropped_reflection]
      | some _ =>
        if check_reflection intf node_system_id then []
        else [Event.multiple_neighbors]

/-- Embedding of `Interface.check_minor_change` (`interface.py` lines
239-262): flood port, name or local id differing from the stored
neighbor is a minor change. -/
def check_minor_change (new_neighbor old_neighbor : Neighbor) : Bool :=
  if new_neighbor.flood_port != old_neighbor.flood_port then true
  else if new_neighbor.name != old_neighbor.name then true
  else if new_neighbor.local_id != old_neighbor.local_id then true
  else false

/-- Embedding of `Interface.action_process_lie` (`interface.py` lines
385-441). The result is the updated interface state, the FSM events
pushed (in push order), and the offers sent to the node's ZTP FSM, each
as the `offer.RxOffer` constructor arguments `(interface name, system
id, level, not_a_ztp_offer, FSM state)` that `send_offer_to_ztp_fsm`
passes. The tick counter is reset to 0 before anything else, exactly as
in the source. -/
def action_process_lie (n : NodeState) (intf : IntfState)
    (protocol_packet : ProtocolPacket) (from_address from_port : Nat) :
    IntfState × List Event × List (String × Nat × Option Nat × Bool × FsmState) :=
  let intf0 := { intf with time_ticks_since_lie_received := some 0 }
  let new_neighbor := make_neighbor protocol_packet from_address from_port
  match is_received_lie_acceptable n intf protocol_packet with
  | (accept, rule, offer_to_ztp, _warning) =>
    if accept = false then
      let intf1 := { intf0 with
        lie_accept_or_reject := "Rejected"
        lie_accept_or_reject_rule := rule
        neighbor := none }
      if offer_to_ztp then
        (intf1, [Event.unacceptable_header],
          [(intf.name, new_neighbor.system_id, new_neighbor.level,
            new_neighbor.not_a_ztp_offer, intf.fsm_state)])
      else
        (intf1, [], [])
    else
      let intf1 := { intf0 with
        lie_accept_or_reject := "Accepted"
        lie_accept_or_reject_rule := rule }
      let offers := [(intf.name, new_neighbor.system_id, new_neighbor.level,
        new_neighbor.not_a_ztp_offer, intf.fsm_state)]
      match intf1.neighbor with
      | none =>
        let intf2 := { intf1 with neighbor := some new_neighbor }
        (intf2, Event.new_neighbor :: check_three_way intf2 n.system_id, offers)
      | some old_neighbor =>
        if new_neighbor.system_id != old_neighbor.system_id then
          (intf1, [Event.multiple_neighbors], offers)
        else if new_neighbor.level != old_neighbor.level then
          (intf1, [Event.neighbor_changed_level], offers)
        else if new_neighbor.address != old_neighbor.address then
          (intf1, [Event.neighbor_changed_address], offers)
        else
          let minor_events :=
            if check_minor_change new_neighbor old_neighbor then
              [Event.neighbor_changed_minor_fields]
            else []
          let intf2 := { intf1 with neighbor := some new_neighbor }
          (intf2, minor_events ++ check_three_way intf2 n.system_id, offers)

/-- The hold time used by the expiry check (`interface.py` lines
450-453): the neighbor's advertised hold time when there is a neighbor
and its hold time is non-zero (Python truthiness), else the default. -/
def effective_holdtime (intf : IntfState) : Nat :=
  match intf.neighbor with
  | some nb => if nb.holdtime ≠ 0 then nb.holdtime else default_lie_holdtime
  | none => default_lie_holdtime

/-- Embedding of `Interface.action_check_hold_time_expired`
(`interface.py` lines 443-455): a `None` counter means the timer is not
running; otherwise increment it and emit `HOLD_TIME_EXPIRED` once it
reaches the hold time. -/
def action_check_hold_time_expired (intf : IntfState) : IntfState × List Event :=
  match intf.time_ticks_since_lie_received with
  | none => (intf, [])
  | some ticks =>
    let intf2 := { intf with time_ticks_since_lie_received := some (ticks + 1) }
    if ticks + 1 ≥ effective_holdtime intf then
      (intf2, [Event.hold_time_expired])
    else
      (intf2, [])

/-- C1: for every pair of TIE headers with the same TIE-ID, the age
comparison function returns its result by the three ordered rules of the
specification: higher `seq_nr` is newer; if equal, non-zero
`remaining_lifetime` beats zero; otherwise a lifetime difference exceeding
300 seconds makes the longer lifetime newer, and anything else compares as
equal age. -/
theorem c1_compare_age_follows_spec_rules (a b : TieHeader)
    (hid : a.tieid = b.tieid) :
    compare_tie_header_age a b = compare_age_spec a b := by
  unfold compare_tie_header_age compare_age_spec lifetime_diff2ignore
  split_ifs <;> omega

/-- Witness for C1 at a concrete input pair. -/
theorem c1_compare_age_follows_spec_rules_witness :
    compare_tie_header_age
        { tieid := ⟨TieDir.south, 5, TieType.node, 1⟩, seq_nr := 3, remaining_lifetime := 400 }
        { tieid := ⟨TieDir.south, 5, TieType.node, 1⟩, seq_nr := 3, remaining_lifetime := 20 }
      = compare_age_spec
        { tieid := ⟨TieDir.south, 5, TieType.node, 1⟩, seq_nr := 3, remaining_lifetime := 400 }
        { tieid := ⟨TieDir.south, 5, TieType.node, 1⟩, seq_nr := 3, remaining_lifetime := 20 } :=
  c1_compare_age_follows_spec_rules _ _ rfl

/-- C4 counterexample: the age comparison is not transitive on the
non-negative side. With equal sequence numbers and non-zero lifetimes
100, 300, 500 the pairs (a,b) and (b,c) both compare as equal age (the
lifetime differences stay within the 300-second band) yet c is strictly
newer than a, so compare(a,b) ≥ 0 and compare(b,c) ≥ 0 while
compare(a,c) < 0: the claimed total order does not hold. -/
theorem c4_age_order_counterexample :
    compare_tie_header_age
        { tieid := ⟨TieDir.south, 5, TieType.node, 1⟩, seq_nr := 7, remaining_lifetime := 100 }
        { tieid := ⟨TieDir.south, 5, TieType.node, 1⟩, seq_nr := 7, remaining_lifetime := 300 } ≥ 0
    ∧ compare_tie_header_age
        { tieid := ⟨TieDir.south, 5, TieType.node, 1⟩, seq_nr := 7, remaining_lifetime := 300 }
        { tieid := ⟨TieDir.south, 5, TieType.node, 1⟩, seq_nr := 7, remaining_lifetime := 500 } ≥ 0
    ∧ ¬ (compare_tie_header_age
        { tieid := ⟨TieDir.south, 5, TieType.node, 1⟩, seq_nr := 7, remaining_lifetime := 100 }
        { tieid := ⟨TieDir.south, 5, TieType.node, 1⟩, seq_nr := 7, remaining_lifetime := 500 } ≥ 0) := by
  refine ⟨by decide, by decide, by decide⟩

/-- Characterization of the strict "newer" verdict of the age comparison:
it holds exactly for a higher sequence number, or equal sequence numbers
and a non-zero lifetime against a zero one, or equal sequence numbers and
a lifetime more than 300 seconds longer than a non-zero one. -/
theorem compare_age_eq_one_iff (a b : TieHeader) :
    compare_tie_header_age a b = 1 ↔
      b.seq_nr < a.seq_nr
      ∨ (a.seq_nr = b.seq_nr ∧ a.remaining_lifetime ≠ 0 ∧ b.remaining_lifetime = 0)
      ∨ (a.seq_nr = b.seq_nr ∧ b.remaining_lifetime ≠ 0
          ∧ a.remaining_lifetime > b.remaining_lifetime + 300) := by
  unfold compare_tie_header_age lifetime_diff2ignore
  split_ifs <;> constructor <;> intro h <;> (try rcases h with h | h | h) <;> omega

/-- C4 (amended): for headers with the same TIE-ID the age comparison is
antisymmetric, `compare(a,b) = -compare(b,a)`, and transitive on strict
comparisons, `compare(a,b) = 1` and `compare(b,c) = 1` imply
`compare(a,c) = 1`; transitivity of `compare(·,·) ≥ 0` fails because the
300-second equality band is not transitive. -/
theorem c4_age_antisymmetric_and_strictly_transitive (a b c : TieHeader)
    (hab : a.tieid = b.tieid) (hbc : b.tieid = c.tieid) :
    compare_tie_header_age a b = -compare_tie_header_age b a
    ∧ (compare_tie_header_age a b = 1 → compare_tie_header_age b c = 1 →
        compare_tie_header_age a c = 1) := by
  constructor
  · unfold compare_tie_header_age lifetime_diff2ignore
    split_ifs <;> omega
  · intro h1 h2
    rw [compare_age_eq_one_iff] at h1 h2 ⊢
    omega

/-- Witness for C4's amended theorem at concrete inputs. -/
theorem c4_age_antisymmetric_and_strictly_transitive_witness :
    compare_tie_header_age
        { tieid := ⟨TieDir.north, 9, TieType.pfx, 2⟩, seq_nr := 4, remaining_lifetime := 900 }
        { tieid := ⟨TieDir.north, 9, TieType.pfx, 2⟩, seq_nr := 3, remaining_lifetime := 900 }
      = -compare_tie_header_age
        { tieid := ⟨TieDir.north, 9, TieType.pfx, 2⟩, seq_nr := 3, remaining_lifetime := 900 }
        { tieid := ⟨TieDir.north, 9, TieType.pfx, 2⟩, seq_nr := 4, remaining_lifetime := 900 }
    ∧ (compare_tie_header_age
        { tieid := ⟨TieDir.north, 9, TieType.pfx, 2⟩, seq_nr := 4, remaining_lifetime := 900 }
        { tieid := ⟨TieDir.north, 9, TieType.pfx, 2⟩, seq_nr := 3, remaining_lifetime := 900 } = 1 →
      compare_tie_header_age
        { tieid := ⟨TieDir.north, 9, TieType.pfx, 2⟩, seq_nr := 3, remaining_lifetime := 900 }
        { tieid := ⟨TieDir.north, 9, TieType.pfx, 2⟩, seq_nr := 2, remaining_lifetime := 900 } = 1 →
      compare_tie_header_age
        { tieid := ⟨TieDir.north, 9, TieType.pfx, 2⟩, seq_nr := 4, remaining_lifetime := 900 }
        { tieid := ⟨TieDir.north, 9, TieType.pfx, 2⟩, seq_nr := 2, remaining_lifetime := 900 } = 1) :=
  c4_age_antisymmetric_and_strictly_transitive _ _ _ rfl rfl

/-- Looking up a key right after assigning it returns the assigned
packet, whether the key was present before or not. -/
theorem db_find_db_insert (ties : TieDb) (i : TieId) (t : TiePacket) :
    db_find (db_insert ties i t) i = some t := by
  unfold db_find db_insert
  split
  next h =>
    induction ties with
    | nil => simp at h
    | cons p l ih =>
      rw [List.map_cons, List.find?]
      by_cases hp : p.1 == i
      · simp [hp]
      · have hl : l.any (fun p => p.1 == i) = true := by
          rcases List.any_eq_true.mp h with ⟨x, hx, hxi⟩
          rcases List.mem_cons.mp hx with hx | hx
          · exact absurd (hx ▸ hxi) (by simpa using hp)
          · exact List.any_eq_true.mpr ⟨x, hx, hxi⟩
        simpa [hp] using ih hl
  next h =>
    have hfalse : ties.any (fun p => p.1 == i) = false := by
      revert h
      cases ties.any (fun p => p.1 == i) <;> simp
    clear h
    induction ties with
    | nil => simp
    | cons p l ih =>
      rw [List.any_cons, Bool.or_eq_false_iff] at hfalse
      rw [List.cons_append, List.find?_cons_of_neg _ (by simp [hfalse.1])]
      exact ih hfalse.2

/-- C3: `better_offer` does not pick the offer with the numerically
higher level. With two valid candidates (neither removed, neither marked
not-a-ZTP-offer, both in THREE_WAY) at levels 1 and 5, the source's
second comparison `offer2.level < offer1.level` can never fire after the
first one failed, so the level-1 offer is returned even though the
level-5 offer ranks higher; this contradicts the source's own comment
"Pick the offer with the highest level" and the specification. -/
theorem c3_better_offer_returns_lower_level_offer :
    better_offer
        (some { interface_name := "if1", system_id := 1, level := 1,
                not_a_ztp_offer := false, state := FsmState.three_way })
        (some { interface_name := "if2", system_id := 2, level := 5,
                not_a_ztp_offer := false, state := FsmState.three_way })
        false
      = some { interface_name := "if1", system_id := 1, level := 1,
               not_a_ztp_offer := false, state := FsmState.three_way }
    ∧ (1 : Nat) < 5 :=
  ⟨rfl, by decide⟩

/-- C10: removing a TIE-ID that is not present in the TIE database is a
no-op: the database is unchanged and no SPF is triggered (the whole node
state is returned untouched). -/
theorem c10_remove_absent_tie_is_noop (n : NodeState) (tie_id : TieId)
    (h : db_find n.ties tie_id = none) :
    remove_tie n tie_id = n := by
  unfold remove_tie
  rw [h]

/-- Witness for C10 on a concrete node with an empty database. -/
theorem c10_remove_absent_tie_is_noop_witness :
    remove_tie { system_id := 1 } ⟨TieDir.south, 2, TieType.node, 1⟩
      = { system_id := 1 } :=
  c10_remove_absent_tie_is_noop _ _ rfl

/-- C8: headers in a received TIRE whose TIE-ID is not in the local TIE
database contribute nothing: processing the TIRE gives the same request,
start-sending and ack lists as processing only the headers whose TIE-ID
is present, so the missing ones are silently ignored. -/
theorem c8_tire_headers_missing_from_db_are_ignored (n : NodeState)
    (tire_packet : TirePacket) :
    process_received_tire_packet n tire_packet
      = process_received_tire_packet n
          ⟨tire_packet.headers.filter (fun h => (find_tie n h.tieid).isSome)⟩ := by
  obtain ⟨headers⟩ := tire_packet
  unfold process_received_tire_packet
  induction headers with
  | nil => rfl
  | cons h rest ih =>
    rw [List.filter_cons]
    cases hdb : find_tie n h.tieid with
    | none =>
      simpa [tire_headers_process, hdb] using ih
    | some db_tie =>
      simp only [tire_headers_process, hdb, Option.isSome_some, if_pos]
      rw [ih]

/-- C6 counterexample: a received TIE of type negative-disaggregation
whose originator is this node's system id and which is missing locally
does not get an empty TIE synthesized: the source hits `assert False` in
`make_according_empty_tie` (modelled as `none`), so no TIE with
`seq_nr = received.seq_nr + 1` is produced for that TIE type. -/
theorem c6_flush_negative_disaggregation_counterexample :
    process_received_tie_packet
        { system_id := 10 }
        { header := { tieid := ⟨TieDir.south, 10, TieType.negDisagg, 1⟩,
                      seq_nr := 5, remaining_lifetime := 100 },
          element := TieElement.pfxE {} }
      = none := rfl

/-- C6 (amended): for every received TIE whose TIE-ID originator equals
this node's system id but which is not in the local TIE database, and
whose type is one with an implemented empty-element synthesis (Prefix,
PositiveDisaggregation, KeyValue, or Node provided the node's own
according real node TIE with `tie_nr = 1` is present and carries a node
element), the node synthesizes and stores an empty TIE with the same
TIE-ID preserving the element kind structure, with `seq_nr` one above
the received one and `remaining_lifetime` 60 seconds, and returns that
TIE's header for sending; the NegativeDisaggregation and PolicyGuided
TIE types are excluded because the source asserts on them. -/
theorem c6_flush_apparently_self_tie (n : NodeState) (rx_tie : TiePacket)
    (horig : rx_tie.header.tieid.originator = n.system_id)
    (hmiss : db_find n.ties rx_tie.header.tieid = none)
    (hkind :
      rx_tie.header.tieid.tietype = TieType.pfx
      ∨ rx_tie.header.tieid.tietype = TieType.posDisagg
      ∨ rx_tie.header.tieid.tietype = TieType.keyValue
      ∨ (rx_tie.header.tieid.tietype = TieType.node
          ∧ ∃ real ne, find_according_real_node_tie n rx_tie.header = some real
              ∧ real.element = TieElement.nodeE ne)) :
    ∃ n2 hdr elem2,
      process_received_tie_packet n rx_tie = some (n2, some hdr, none)
      ∧ hdr.tieid = rx_tie.header.tieid
      ∧ hdr.seq_nr = rx_tie.header.seq_nr + 1
      ∧ hdr.remaining_lifetime = 60
      ∧ db_find n2.ties rx_tie.header.tieid = some ⟨hdr, elem2⟩
      ∧ (rx_tie.header.tieid.tietype = TieType.pfx → elem2 = TieElement.pfxE {})
      ∧ (rx_tie.header.tieid.tietype = TieType.posDisagg →
          elem2 = TieElement.posDisaggE {})
      ∧ (rx_tie.header.tieid.tietype = TieType.keyValue →
          elem2 = TieElement.kvE {})
      ∧ (rx_tie.header.tieid.tietype = TieType.node →
          ∀ real ne, find_according_real_node_tie n rx_tie.header = some real →
            real.element = TieElement.nodeE ne →
            elem2 = TieElement.nodeE { ne with neighbors := [] }) := by
  obtain ⟨⟨⟨dir, orig, ty, nr⟩, seq, rl, ot⟩, elem⟩ := rx_tie
  simp only at horig hmiss hkind
  rcases hkind with hk | hk | hk | ⟨hk, real, ne, hreal, helem⟩ <;> subst hk <;> subst horig
  · refine ⟨trigger_spf { n with ties := (db_insert n.ties
        ⟨dir, n.system_id, TieType.pfx, nr⟩
        ⟨⟨⟨dir, n.system_id, TieType.pfx, nr⟩, seq + 1, 60, none⟩, TieElement.pfxE {}⟩) }
        "TIE added",
      ⟨⟨dir, n.system_id, TieType.pfx, nr⟩, seq + 1, 60, none⟩, TieElement.pfxE {},
      ?_, rfl, rfl, rfl, ?_, ?_, ?_, ?_, ?_⟩
    · simp [process_received_tie_packet, hmiss, bump_own_tie,
        make_according_empty_tie, make_tie_header, store_tie, FLUSH_LIFETIME]
    · simp only [trigger_spf]
      exact db_find_db_insert _ _ _
    · intro _
      rfl
    · intro h
      simp at h
    · intro h
      simp at h
    · intro h
      simp at h
  · refine ⟨trigger_spf { n with ties := (db_insert n.ties
        ⟨dir, n.system_id, TieType.posDisagg, nr⟩
        ⟨⟨⟨dir, n.system_id, TieType.posDisagg, nr⟩, seq + 1, 60, none⟩,
          TieElement.posDisaggE {}⟩) }
        "TIE added",
      ⟨⟨dir, n.system_id, TieType.posDisagg, nr⟩, seq + 1, 60, none⟩,
      TieElement.posDisaggE {},
      ?_, rfl, rfl, rfl, ?_, ?_, ?_, ?_, ?_⟩
    · simp [process_received_tie_packet, hmiss, bump_own_tie,
        make_according_empty_tie, make_tie_header, store_tie, FLUSH_LIFETIME]
    · simp only [trigger_spf]
      exact db_find_db_insert _ _ _
    · intro h
      simp at h
    · intro _
      rfl
    · intro h
      simp at h
    · intro h
      simp at h
  · refine ⟨trigger_spf { n with ties := (db_insert n.ties
        ⟨dir, n.system_id, TieType.keyValue, nr⟩
        ⟨⟨⟨dir, n.system_id, TieType.keyValue, nr⟩, seq + 1, 60, none⟩,
          TieElement.kvE {}⟩) }
        "TIE added",
      ⟨⟨dir, n.system_id, TieType.keyValue, nr⟩, seq + 1, 60, none⟩, TieElement.kvE {},
      ?_, rfl, rfl, rfl, ?_, ?_, ?_, ?_, ?_⟩
    · simp [process_received_tie_packet, hmiss, bump_own_tie,
        make_according_empty_tie, make_tie_header, store_tie, FLUSH_LIFETIME]
    · simp only [trigger_spf]
      exact db_find_db_insert _ _ _
    · intro h
      simp at h
    · intro h
      simp at h
    · intro _
      rfl
    · intro h
      simp at h
  · refine ⟨trigger_spf { n with ties := (db_insert n.ties
        ⟨dir, n.system_id, TieType.node, nr⟩
        ⟨⟨⟨dir, n.system_id, TieType.node, nr⟩, seq + 1, 60, none⟩,
          TieElement.nodeE { ne with neighbors := [] }⟩) }
        "TIE added",
      ⟨⟨dir, n.system_id, TieType.node, nr⟩, seq + 1, 60, none⟩,
      TieElement.nodeE { ne with neighbors := [] },
      ?_, rfl, rfl, rfl, ?_, ?_, ?_, ?_, ?_⟩
    · simp [process_received_tie_packet, hmiss, bump_own_tie,
        make_according_empty_tie, make_tie_header, hreal, helem, store_tie,
        FLUSH_LIFETIME]
    · simp only [trigger_spf]
      exact db_find_db_insert _ _ _
    · intro h
      simp at h
    · intro h
      simp at h
    · intro h
      simp at h
    · intro _ real2 ne2 hreal2 helem2
      rw [hreal] at hreal2
      cases hreal2
      rw [helem] at helem2
      cases helem2
      rfl

/-- Witness for C6's amended theorem: a prefix TIE apparently originated
by this node (system id 10) and missing locally gets the empty flush TIE
synthesized, stored and returned for sending. -/
theorem c6_flush_apparently_self_tie_witness :
    ∃ n2 hdr elem2,
      process_received_tie_packet
          { system_id := 10 }
          { header := { tieid := ⟨TieDir.north, 10, TieType.pfx, 3⟩,
                        seq_nr := 7, remaining_lifetime := 500 },
            element := TieElement.pfxE {} }
        = some (n2, some hdr, none)
      ∧ hdr.tieid = (⟨TieDir.north, 10, TieType.pfx, 3⟩ : TieId)
      ∧ hdr.seq_nr = 7 + 1
      ∧ hdr.remaining_lifetime = 60
      ∧ db_find n2.ties ⟨TieDir.north, 10, TieType.pfx, 3⟩ = some ⟨hdr, elem2⟩
      ∧ elem2 = TieElement.pfxE {} := by
  obtain ⟨n2, hdr, elem2, h1, h2, h3, h4, h5, h6, -, -, -⟩ :=
    c6_flush_apparently_self_tie
      { system_id := 10 }
      { header := { tieid := ⟨TieDir.north, 10, TieType.pfx, 3⟩,
                    seq_nr := 7, remaining_lifetime := 500 },
        element := TieElement.pfxE {} }
      rfl rfl (Or.inl rfl)
  exact ⟨n2, hdr, elem2, h1, h2, h3, h4, h5, h6 rfl⟩

/-- The flood-allowance verdict depends on the node state only through
the originator-level lookup for the header at hand: two nodes whose TIE
databases agree on that lookup get the same verdict for identical
arguments. -/
theorem is_flood_allowed_db_agree (n1 n2 : NodeState) (tie_header : TieHeader)
    (hdb : tie_originator_level n1 tie_header = tie_originator_level n2 tie_header)
    (d : Option Dir) (to_sys from_sys : Nat) (from_level : Option Nat)
    (from_tof : Bool) :
    is_flood_allowed n1 tie_header d to_sys from_sys from_level from_tof
      = is_flood_allowed n2 tie_header d to_sys from_sys from_level from_tof := by
  unfold is_flood_allowed
  rw [hdb]

/-- Reversing the direction computed from two levels yields the
direction computed with the levels swapped. -/
theorem reverse_direction_direction_of (x y : Nat) :
    reverse_direction (some (direction_of x y)) = some (direction_of y x) := by
  unfold direction_of
  rcases Nat.lt_trichotomy x y with h | h | h
  · rw [if_neg (by omega), if_pos h, if_pos h]
    rfl
  · subst h
    rw [if_neg (by omega), if_neg (by omega)]
    rfl
  · rw [if_pos h, if_neg (by omega), if_pos h]
    rfl

/-- C9: when the direction of the destination cannot be determined
(`to_node_direction` is `None`, which is what `neighbor_direction`
returns when the interface has no neighbor), the flood-scope decision is
not-allowed, for South-direction and North-direction TIEs alike and for
every TIE type. -/
theorem c9_no_direction_never_flood (n : NodeState) (tie_header : TieHeader)
    (to_sys from_sys : Nat) (from_level : Option Nat) (from_tof : Bool)
    (intf : IntfState) :
    (intf.neighbor = none → neighbor_direction n intf = none)
    ∧ (is_flood_allowed n tie_header none to_sys from_sys from_level from_tof).1
        = false := by
  constructor
  · intro h
    unfold neighbor_direction
    rw [h]
  · obtain ⟨⟨dir, orig, ty, nr⟩, seq, rl, ot⟩ := tie_header
    cases dir <;> cases ty <;> rfl

/-- Witness for C9 at a concrete header and interface. -/
theorem c9_no_direction_never_flood_witness :
    (({} : IntfState).neighbor = none →
      neighbor_direction { system_id := 1 } {} = none)
    ∧ (is_flood_allowed { system_id := 1 }
        { tieid := ⟨TieDir.south, 7, TieType.node, 1⟩, seq_nr := 1,
          remaining_lifetime := 100 }
        none 2 1 (some 5) false).1 = false :=
  c9_no_direction_never_flood _ _ _ _ _ _ _

/-- C5 counterexample: flood-scope symmetry fails when the two adjacent
nodes' TIE databases disagree on the originator level of a Node S-TIE,
even with fully consistent views of each other. Node A (system id 1,
level 5) holds the node TIE of originator 7 at level 5, so A may flood
it south to B (originator level equals A's level); node B (system id 2,
level 4) does not hold that TIE, so B's simple request filter cannot
determine the originator level and denies the request. All the
view-consistency facts the claim demands are recorded alongside. -/
theorem c5_scope_symmetry_counterexample :
    (flood_allowed_from_node_to_nbr
        { system_id := 1, configured_level := some 5,
          ties := [(⟨TieDir.south, 7, TieType.node, 1⟩,
            ⟨⟨⟨TieDir.south, 7, TieType.node, 1⟩, 1, 600, none⟩,
              TieElement.nodeE { level := some 5, neighbors := [] }⟩)] }
        ⟨⟨TieDir.south, 7, TieType.node, 1⟩, 1, 600, none⟩
        (some Dir.south) 2 1 (some 5) false).1 = true
    ∧ (is_request_allowed_simple
        { system_id := 2, configured_level := some 4 }
        { neighbor := some { system_id := 1, level := some 5 } }
        ⟨⟨TieDir.south, 7, TieType.node, 1⟩, 1, 600, none⟩).1 = false
    ∧ (some Dir.south
        = neighbor_direction
            { system_id := 1, configured_level := some 5,
              ties := [(⟨TieDir.south, 7, TieType.node, 1⟩,
                ⟨⟨⟨TieDir.south, 7, TieType.node, 1⟩, 1, 600, none⟩,
                  TieElement.nodeE { level := some 5, neighbors := [] }⟩)] }
            { neighbor := some { system_id := 2, level := some 4 } })
    ∧ (Neighbor.top_of_fabric { system_id := 1, level := some 5 }
        = top_of_fabric { system_id := 1, configured_level := some 5 })
    ∧ level_value { system_id := 1, configured_level := some 5 } = some 5
    ∧ level_value { system_id := 2, configured_level := some 4 } = some 4 := by
  refine ⟨rfl, rfl, rfl, rfl, rfl, rfl⟩

/-- C5 (amended): for every TIE header and every pair of adjacent nodes
A and B with consistent views of each other's system id, level,
direction and top-of-fabric status, and whose TIE databases agree on the
originator-level lookup for the header, A may flood the TIE to B
(transmit-side scope filter evaluated at A, with the arguments
`is_flood_filtered` passes) exactly when B may request it from A
(request filter evaluated at B in simple-filter mode). -/
theorem c5_scope_symmetry (nA nB : NodeState) (intfA intfB : IntfState)
    (nbA nbB : Neighbor) (tie_header : TieHeader) (aLvl bLvl : Nat)
    (hA : intfA.neighbor = some nbB) (hB : intfB.neighbor = some nbA)
    (hsysA : nbA.system_id = nA.system_id) (hsysB : nbB.system_id = nB.system_id)
    (hlvlA : nbA.level = some aLvl) (hlvlB : nbB.level = some bLvl)
    (hlvA : level_value nA = some aLvl) (hlvB : level_value nB = some bLvl)
    (htofA : Neighbor.top_of_fabric nbA = top_of_fabric nA)
    (hdb : tie_originator_level nA tie_header = tie_originator_level nB tie_header) :
    (flood_allowed_from_node_to_nbr nA tie_header (neighbor_direction nA intfA)
        nbB.system_id nA.system_id (level_value nA) (top_of_fabric nA)).1
      = (is_request_allowed_simple nB intfB tie_header).1 := by
  have hdirA : neighbor_direction nA intfA = some (direction_of bLvl aLvl) := by
    simp only [neighbor_direction, hA, hlvlB, hlvA]
  have hdirB : neighbor_direction nB intfB = some (direction_of aLvl bLvl) := by
    simp only [neighbor_direction, hB, hlvlA, hlvB]
  simp only [is_request_allowed_simple, hB]
  unfold flood_allowed_from_node_to_nbr flood_allowed_from_nbr_to_node
  rw [hdirA, hdirB, reverse_direction_direction_of, hsysA, hsysB, hlvlA, hlvA,
    htofA, is_flood_allowed_db_agree nA nB tie_header hdb]

/-- Witness for C5's amended theorem: two consistently configured
adjacent nodes (levels 5 and 4) with empty TIE databases agree on a
North prefix TIE. -/
theorem c5_scope_symmetry_witness :
    (flood_allowed_from_node_to_nbr { system_id := 1, configured_level := some 5 }
        ⟨⟨TieDir.north, 3, TieType.pfx, 1⟩, 1, 100, none⟩
        (neighbor_direction { system_id := 1, configured_level := some 5 }
          { neighbor := some { system_id := 2, level := some 4 } })
        (Neighbor.system_id { system_id := 2, level := some 4 })
        (NodeState.system_id { system_id := 1, configured_level := some 5 })
        (level_value { system_id := 1, configured_level := some 5 })
        (top_of_fabric { system_id := 1, configured_level := some 5 })).1
      = (is_request_allowed_simple { system_id := 2, configured_level := some 4 }
          { neighbor := some { system_id := 1, level := some 5 } }
          ⟨⟨TieDir.north, 3, TieType.pfx, 1⟩, 1, 100, none⟩).1 :=
  c5_scope_symmetry
    { system_id := 1, configured_level := some 5 }
    { system_id := 2, configured_level := some 4 }
    { neighbor := some { system_id := 2, level := some 4 } }
    { neighbor := some { system_id := 1, level := some 5 } }
    { system_id := 1, level := some 5 }
    { system_id := 2, level := some 4 }
    ⟨⟨TieDir.north, 3, TieType.pfx, 1⟩, 1, 100, none⟩
    5 4 rfl rfl rfl rfl rfl rfl rfl rfl rfl rfl

/-- This node is a leaf exactly when its (defined) level value is 0. -/
theorem this_node_is_leaf_iff (n : NodeState) (ml : Nat)
    (hml : level_value n = some ml) :
    this_node_is_leaf n = true ↔ ml = 0 := by
  unfold this_node_is_leaf leaf_level
  rw [hml]
  simp

/-- The HAT check holds exactly when HAT is undefined or at most the
remote level. -/
theorem hat_not_greater_iff (n : NodeState) (rl : Nat) :
    hat_not_greater_remote_level n (some rl) = true ↔
      n.highest_adjacency_three_way = none
      ∨ ∃ hat, n.highest_adjacency_three_way = some hat ∧ hat ≤ rl := by
  unfold hat_not_greater_remote_level
  cases h : n.highest_adjacency_three_way with
  | none => simp
  | some hat => simp [h]

/-- The leaf-2-leaf check holds exactly when both nodes are leaf, this
node supports leaf-2-leaf, and the LIE advertises the leaf-2-leaf
capability. -/
theorem both_l2l_iff (n : NodeState) (pkt : ProtocolPacket) (hdr : PacketHeader)
    (rl ml : Nat) (hhdr : pkt.header = some hdr) (hrl : hdr.level = some rl)
    (hml : level_value n = some ml) :
    both_nodes_support_leaf_2_leaf n pkt = true ↔
      ml = 0 ∧ rl = 0 ∧ n.leaf_2_leaf = true
      ∧ ∃ caps, pkt.lie.capabilities = some caps
          ∧ caps.hierarchy_indications
              = some HierarchyIndications.leaf_only_and_leaf_2_leaf_procedures := by
  unfold both_nodes_support_leaf_2_leaf
  simp only [hhdr, hrl]
  by_cases hleaf : this_node_is_leaf n = true
  · have hml0 : ml = 0 := (this_node_is_leaf_iff n ml hml).mp hleaf
    by_cases hr : rl = 0
    · subst hr
      cases hl2l : n.leaf_2_leaf with
      | false => simp [hleaf, hl2l]
      | true =>
        cases hcap : pkt.lie.capabilities with
        | none => simp [hleaf, hl2l, hcap]
        | some caps => simp [hleaf, hl2l, hcap, hml0]
    · simp [hleaf, hr]
  · have hlf : this_node_is_leaf n = false := by
      revert hleaf
      cases this_node_is_leaf n <;> simp
    have hmlne : ¬ ml = 0 := fun h => hleaf ((this_node_is_leaf_iff n ml hml).mpr h)
    simp [hlf, hmlne]

/-- The level-difference check holds exactly when neither node is leaf
and the levels differ by at most one. -/
theorem neither_leaf_iff (n : NodeState) (pkt : ProtocolPacket) (hdr : PacketHeader)
    (rl ml : Nat) (hhdr : pkt.header = some hdr) (hrl : hdr.level = some rl)
    (hml : level_value n = some ml) :
    neither_leaf_and_ldiff_one n pkt = true ↔
      ml ≠ 0 ∧ rl ≠ 0 ∧ ((rl : Int) - (ml : Int)).natAbs ≤ 1 := by
  unfold neither_leaf_and_ldiff_one
  simp only [hhdr, hrl, hml]
  by_cases hleaf : this_node_is_leaf n = true
  · have hml0 : ml = 0 := (this_node_is_leaf_iff n ml hml).mp hleaf
    simp [hleaf, hml0]
  · have hlf : this_node_is_leaf n = false := by
      revert hleaf
      cases this_node_is_leaf n <;> simp
    have hmlne : ¬ ml = 0 := fun h => hleaf ((this_node_is_leaf_iff n ml hml).mpr h)
    by_cases hr : rl = 0
    · simp [hlf, hr]
    · simp [hlf, hr, hmlne]

/-- C2: for every received LIE that has passed the header, version,
system-id, loopback, MTU, level-defined and PoD checks, the LIE is
accepted exactly when one of the four conditions holds: (1) this node is
a leaf and HAT (undefined counts as not greater) is at most the sender's
level; (2) this node is not a leaf and the sender's level is 0; (3) both
nodes are leaf, this node supports leaf-2-leaf and the sender advertises
the leaf-2-leaf capability; (4) neither node is leaf and the levels
differ by at most 1. When none holds the LIE is rejected with rule
"Level mismatch". -/
theorem c2_lie_acceptance (n : NodeState) (intf : IntfState) (pkt : ProtocolPacket)
    (hdr : PacketHeader) (rl ml : Nat)
    (hhdr : pkt.header = some hdr)
    (hver : hdr.major_version = RIFT_MAJOR_VERSION)
    (hsid : hdr.sender ≠ 0)
    (hloop : n.system_id ≠ hdr.sender)
    (hmtu : intf.mtu = pkt.lie.link_mtu_size)
    (hrl : hdr.level = some rl)
    (hml : level_value n = some ml)
    (hpod : intf.pod = 0 ∨ pkt.lie.pod = 0 ∨ intf.pod = pkt.lie.pod) :
    ((is_received_lie_acceptable n intf pkt).1 = true ↔
      (ml = 0 ∧ (n.highest_adjacency_three_way = none
          ∨ ∃ hat, n.highest_adjacency_three_way = some hat ∧ hat ≤ rl))
      ∨ (ml ≠ 0 ∧ rl = 0)
      ∨ (ml = 0 ∧ rl = 0 ∧ n.leaf_2_leaf = true
          ∧ ∃ caps, pkt.lie.capabilities = some caps
            ∧ caps.hierarchy_indications
                = some HierarchyIndications.leaf_only_and_leaf_2_leaf_procedures)
      ∨ (ml ≠ 0 ∧ rl ≠ 0 ∧ ((rl : Int) - (ml : Int)).natAbs ≤ 1))
    ∧ ((is_received_lie_acceptable n intf pkt).1 = false →
        (is_received_lie_acceptable n intf pkt).2.1 = "Level mismatch") := by
  have hred : is_received_lie_acceptable n intf pkt =
      (if this_node_is_leaf n && hat_not_greater_remote_level n hdr.level then
        (true, "This node is leaf and HAT not greater than remote level", true, false)
      else if !(this_node_is_leaf n) && (hdr.level == some 0) then
        (true, "This node is not leaf and neighbor is leaf", true, false)
      else if both_nodes_support_leaf_2_leaf n pkt then
        (true, "Both nodes are leaf and support leaf-2-leaf", true, false)
      else if neither_leaf_and_ldiff_one n pkt then
        (true, "Neither node is leaf and level difference is at most one", true, false)
      else
        (false, "Level mismatch", true, true)) := by
    unfold is_received_lie_acceptable
    simp only [hhdr]
    rw [if_neg (by simp [hver]),
      if_neg (by simp [is_valid_received_system_id, hsid]),
      if_neg (by simp [hloop]),
      if_neg (by simp [hmtu]),
      if_neg (by simp [hrl]),
      if_neg (by simp [hml]),
      if_neg (by rcases hpod with h | h | h <;> simp [h, UNDEFINED_OR_ANY_POD]),
      if_neg (by simp [hmtu])]
  rw [hred, hrl]
  have hlf_of_ne : ¬ ml = 0 → this_node_is_leaf n = false := by
    intro hmlne
    cases hq : this_node_is_leaf n with
    | false => rfl
    | true => exact absurd ((this_node_is_leaf_iff n ml hml).mp hq) hmlne
  split_ifs with h1 h2 h3 h4
  · refine ⟨⟨fun _ => ?_, fun _ => rfl⟩, fun h => absurd h (by simp)⟩
    have h1a := h1
    rw [Bool.and_eq_true] at h1a
    exact Or.inl ⟨(this_node_is_leaf_iff n ml hml).mp h1a.1,
      (hat_not_greater_iff n rl).mp h1a.2⟩
  · refine ⟨⟨fun _ => ?_, fun _ => rfl⟩, fun h => absurd h (by simp)⟩
    have h2a := h2
    rw [Bool.and_eq_true] at h2a
    have hlf : this_node_is_leaf n = false := by
      have hb := h2a.1
      revert hb
      cases this_node_is_leaf n <;> simp
    have hrl0 : rl = 0 := by simpa using h2a.2
    refine Or.inr (Or.inl ⟨fun hm0 => ?_, hrl0⟩)
    rw [(this_node_is_leaf_iff n ml hml).mpr hm0] at hlf
    cases hlf
  · refine ⟨⟨fun _ => ?_, fun _ => rfl⟩, fun h => absurd h (by simp)⟩
    exact Or.inr (Or.inr (Or.inl
      ((both_l2l_iff n pkt hdr rl ml hhdr hrl hml).mp h3)))
  · refine ⟨⟨fun _ => ?_, fun _ => rfl⟩, fun h => absurd h (by simp)⟩
    exact Or.inr (Or.inr (Or.inr
      ((neither_leaf_iff n pkt hdr rl ml hhdr hrl hml).mp h4)))
  · refine ⟨⟨fun h => absurd h (by simp), fun hr => ?_⟩, fun _ => rfl⟩
    rcases hr with ⟨hm0, hhat⟩ | ⟨hmne, hr0⟩ | hl2l | hnl
    · refine absurd ?_ h1
      rw [Bool.and_eq_true]
      exact ⟨(this_node_is_leaf_iff n ml hml).mpr hm0,
        (hat_not_greater_iff n rl).mpr hhat⟩
    · refine absurd ?_ h2
      rw [Bool.and_eq_true]
      exact ⟨by simp [hlf_of_ne hmne], by simpa using hr0⟩
    · exact absurd ((both_l2l_iff n pkt hdr rl ml hhdr hrl hml).mpr hl2l) h3
    · exact absurd ((neither_leaf_iff n pkt hdr rl ml hhdr hrl hml).mpr hnl) h4

/-- Witness for C2: a level-1 node receiving a LIE from a level-1 sender
(all preliminary checks passing). -/
theorem c2_lie_acceptance_witness :
    ((is_received_lie_acceptable { system_id := 1, configured_level := some 1 } {}
        { header := some { sender := 2, level := some 1 }, lie := {} }).1 = true ↔
      ((1 : Nat) = 0 ∧ ((NodeState.highest_adjacency_three_way
            { system_id := 1, configured_level := some 1 }) = none
          ∨ ∃ hat, (NodeState.highest_adjacency_three_way
              { system_id := 1, configured_level := some 1 }) = some hat ∧ hat ≤ 1))
      ∨ ((1 : Nat) ≠ 0 ∧ (1 : Nat) = 0)
      ∨ ((1 : Nat) = 0 ∧ (1 : Nat) = 0
          ∧ (NodeState.leaf_2_leaf { system_id := 1, configured_level := some 1 }) = true
          ∧ ∃ caps, (LiePacket.capabilities {}) = some caps
            ∧ caps.hierarchy_indications
                = some HierarchyIndications.leaf_only_and_leaf_2_leaf_procedures)
      ∨ ((1 : Nat) ≠ 0 ∧ (1 : Nat) ≠ 0 ∧ (((1 : Nat) : Int) - ((1 : Nat) : Int)).natAbs ≤ 1))
    ∧ ((is_received_lie_acceptable { system_id := 1, configured_level := some 1 } {}
        { header := some { sender := 2, level := some 1 }, lie := {} }).1 = false →
      (is_received_lie_acceptable { system_id := 1, configured_level := some 1 } {}
        { header := some { sender := 2, level := some 1 }, lie := {} }).2.1
        = "Level mismatch") :=
  c2_lie_acceptance { system_id := 1, configured_level := some 1 } {}
    { header := some { sender := 2, level := some 1 }, lie := {} }
    { sender := 2, level := some 1 } 1 1
    rfl rfl (by decide) (by decide) rfl rfl rfl (Or.inl rfl)

/-- C7: a received LIE resets the per-interface hold-timer tick counter
to 0 (the reset happens before the acceptance check, so in particular on
every accepted LIE); the TIMER_TICK action increments a running counter
by one; and HOLD_TIME_EXPIRED is emitted exactly when the incremented
counter reaches the neighbor's advertised hold time (with 3 seconds as
the default when there is no neighbor hold time). -/
theorem c7_hold_timer (n : NodeState) (intf : IntfState) (pkt : ProtocolPacket)
    (from_address from_port ticks : Nat)
    (hacc : (is_received_lie_acceptable n intf pkt).1 = true)
    (hticks : intf.time_ticks_since_lie_received = some ticks) :
    (action_process_lie n intf pkt from_address
        from_port).1.time_ticks_since_lie_received = some 0
    ∧ (action_check_hold_time_expired
        intf).1.time_ticks_since_lie_received = some (ticks + 1)
    ∧ (Event.hold_time_expired ∈ (action_check_hold_time_expired intf).2
        ↔ ticks + 1 ≥ effective_holdtime intf)
    ∧ default_lie_holdtime = 3 := by
  refine ⟨?_, ?_, ?_, rfl⟩
  · unfold action_process_lie
    rcases hres : is_received_lie_acceptable n intf pkt with ⟨acc, rule, oz, w⟩
    rw [hres] at hacc
    simp only at hacc
    subst hacc
    simp only
    cases hnb : intf.neighbor <;> simp [hnb] <;> split_ifs <;> rfl
  · unfold action_check_hold_time_expired
    by_cases hc : ticks + 1 ≥ effective_holdtime intf <;> simp [hticks, hc]
  · unfold action_check_hold_time_expired
    by_cases hc : ticks + 1 ≥ effective_holdtime intf <;> simp [hticks, hc]

/-- Witness for C7: a level-1 node, an interface with a running counter
at 1 and no neighbor (default hold time 3), and an acceptable LIE from a
level-1 sender. -/
theorem c7_hold_timer_witness :
    (action_process_lie { system_id := 1, configured_level := some 1 }
        { time_ticks_since_lie_received := some 1 }
        { header := some { sender := 2, level := some 1 }, lie := {} }
        0 0).1.time_ticks_since_lie_received = some 0
    ∧ (action_check_hold_time_expired
        { time_ticks_since_lie_received := some 1 }).1.time_ticks_since_lie_received
        = some (1 + 1)
    ∧ (Event.hold_time_expired ∈ (action_check_hold_time_expired
        { time_ticks_since_lie_received := some 1 }).2
        ↔ 1 + 1 ≥ effective_holdtime { time_ticks_since_lie_received := some 1 })
    ∧ default_lie_holdtime = 3 :=
  c7_hold_timer { system_id := 1, configured_level := some 1 }
    { time_ticks_since_lie_received := some 1 }
    { header := some { sender := 2, level := some 1 }, lie := {} }
    0 0 1 rfl rfl

end Rift
